import Mathlib

/-!
Shallow embedding of the relay core of ragwalla-agent-studio
(src/ai_service.py, src/app.py, src/database.py) and proofs about it.

Conventions used throughout:
* upstream websocket frames are modelled after the point at which the Python
  code has classified them (aiohttp message type, json.loads outcome, and the
  fields the dispatch reads from the decoded object);
* generated identifiers and timestamps (uuid4, datetime.now) are threaded in
  as explicit arguments, since the code treats them as opaque fresh strings;
* Python string helpers (strip, startswith, replace) are re-implemented over
  character lists so that every definition reduces in the kernel.
-/

namespace RagwallaStudio

/-- Python str.strip strips these characters at both ends (ASCII part of the
Python whitespace set; the code only ever strips model output text). -/
def isPySpace (c : Char) : Bool :=
  c == ' ' || c == '\t' || c == '\n' || c == '\r' || c == '\x0b' || c == '\x0c'

/-- Python str.strip over the character list of a string. -/
def pyStrip (s : String) : String :=
  ⟨((s.data.dropWhile isPySpace).reverse.dropWhile isPySpace).reverse⟩

/-- Python str.startswith. -/
def pyStartsWith (s p : String) : Bool :=
  p.data.isPrefixOf s.data

/-- Fuel-driven helper for pyReplace (fuel bounds the scan length). -/
def replaceListAux (pat rep : List Char) : Nat → List Char → List Char
  | 0, l => l
  | _, [] => []
  | fuel + 1, c :: cs =>
      if pat.isPrefixOf (c :: cs) then
        rep ++ replaceListAux pat rep fuel ((c :: cs).drop pat.length)
      else
        c :: replaceListAux pat rep fuel cs

/-- Python str.replace (all non-overlapping occurrences, left to right); the
code only uses it with the fixed non-empty pattern of the thread-info
sentinel. -/
def pyReplace (s pat rep : String) : String :=
  ⟨replaceListAux pat.data rep.data s.data.length s.data⟩

/-- Python truthiness of an optional string field read with dict.get:
absent and the empty string are falsy. -/
def truthy : Option String → Bool
  | none => false
  | some s => s != ""

/-!
## Upstream websocket event model (src/ai_service.py)

A TEXT frame is either a decoded JSON object (the fields the dispatch in
_call_remote_agent / _call_remote_agent_stream reads: "type", "content",
"threadId", "error") or raw text on json.JSONDecodeError.  ERROR and CLOSE
frames are the corresponding aiohttp WSMsgType cases.
-/

/-- The fields of a decoded JSON frame that the dispatch reads. -/
structure JFrame where
  jtype : Option String
  content : Option String
  threadId : Option String
  jerror : Option String
deriving DecidableEq, Repr

/-- One message produced by the websocket iterator, as the Python loop body
sees it. -/
inductive WSMsg where
  | jsonText (f : JFrame)
  | rawText (s : String)
  | wsError
  | close
deriving DecidableEq, Repr

/-- A frame of type "chunk" carrying the given content. -/
def chunkFrame (c : String) : WSMsg :=
  .jsonText ⟨some "chunk", some c, none, none⟩

/-- A frame of type "complete". -/
def completeFrame : WSMsg :=
  .jsonText ⟨some "complete", none, none, none⟩

/-!
## Buffered mode: _call_remote_agent (src/ai_service.py lines 261-336)
-/

/-- Outcome of collect_messages: either the loop returned with the parts
accumulated so far, or an exception escaped it (the raise on an upstream
error field). -/
inductive CollectResult where
  | done (parts : List String)
  | raised (msg : String)
deriving DecidableEq, Repr

/-- The collect_messages inner coroutine of _call_remote_agent.  The first
argument is the list of messages the iterator yields before it is exhausted
(an exhausted list models both normal stream end and the 30s timeout, whose
continuations in the source coincide); the second is response_parts. -/
def collect_messages : List WSMsg → List String → CollectResult
  | [], parts => .done parts
  | .jsonText f :: rest, parts =>
      if f.jtype = some "chunk" then
        collect_messages rest (parts ++ [f.content.getD ""])
      else if f.jtype = some "complete" then
        .done parts
      else if f.jtype = some "connected" then
        collect_messages rest parts
      else if f.jtype = some "typing" then
        collect_messages rest parts
      else if f.jtype = some "thread_info" then
        collect_messages rest parts
      else if truthy f.jerror then
        .raised ("Agent error: " ++ f.jerror.getD "")
      else
        collect_messages rest parts
  | .rawText s :: rest, parts => collect_messages rest (parts ++ [s])
  | .wsError :: _, parts => .done parts
  | .close :: _, parts => .done parts

/-- The fixed sentinel returned when the joined response is empty. -/
def emptyResponseSentinel : String :=
  "WebSocket connection successful, but no response received."

/-- The fixed string the outer handler of _call_remote_agent returns when an
exception (such as the upstream error raise) reaches it. -/
def unexpectedErrorReply : String :=
  "An unexpected error occurred. Please try again."

/-- _call_remote_agent, from the point where the connection is established
and both outbound frames are sent: consume the iterator, join the parts,
strip, and fall back to the sentinel on an empty result; an escaped upstream
error raise is converted by the outer broad handler. -/
def call_remote_agent (msgs : List WSMsg) : String :=
  match collect_messages msgs [] with
  | .raised _ => unexpectedErrorReply
  | .done parts =>
      let full := pyStrip (String.join parts)
      if full = "" then emptyResponseSentinel else full

/-!
## Streaming mode: _call_remote_agent_stream (src/ai_service.py lines 393-481)
-/

/-- The stream_messages inner coroutine: returns the list of callback
invocations (text, is_complete) it performs, and whether it returned early
via a terminal branch (complete, upstream error field, ERROR frame, CLOSE
frame).  An exhausted list with no early return models the iterator ending
normally. -/
def stream_messages : List WSMsg → List (String × Bool) × Bool
  | [] => ([], false)
  | .jsonText f :: rest =>
      if f.jtype = some "chunk" then
        if f.content.getD "" = "" then
          stream_messages rest
        else
          ((f.content.getD "", false) :: (stream_messages rest).1,
            (stream_messages rest).2)
      else if f.jtype = some "complete" then
        ([("", true)], true)
      else if f.jtype = some "connected" then
        stream_messages rest
      else if f.jtype = some "typing" then
        stream_messages rest
      else if f.jtype = some "thread_info" then
        if truthy f.threadId then
          (("__THREAD_INFO__" ++ f.threadId.getD "", false) :: (stream_messages rest).1,
            (stream_messages rest).2)
        else
          stream_messages rest
      else if truthy f.jerror then
        ([("Error: " ++ f.jerror.getD "", true)], true)
      else
        stream_messages rest
  | .rawText _ :: rest => stream_messages rest
  | .wsError :: _ => ([("Connection error occurred.", true)], true)
  | .close :: _ => ([("", true)], true)

/-- _call_remote_agent_stream from the point where both outbound frames are
sent: the callback invocations it performs.  timedOut says whether
asyncio.wait_for raised TimeoutError after the listed messages were
processed; the timeout handler appends its own terminal callback, but only
when stream_messages did not already return early. -/
def call_remote_agent_stream (msgs : List WSMsg) (timedOut : Bool) :
    List (String × Bool) :=
  let r := stream_messages msgs
  if r.2 then r.1
  else if timedOut then r.1 ++ [("Response timeout. Please try again.", true)]
  else r.1

/-- Number of terminal (is_complete = true) invocations in a callback trace. -/
def terminalCount (calls : List (String × Bool)) : Nat :=
  (calls.filter (fun c => c.2)).length

/-!
## Token provider: _get_websocket_token (src/ai_service.py lines 55-98)
-/

/-- Outcome of the POST to the token endpoint as the code observes it: a
response with a status and the optional "token" field of its JSON body, a
10s timeout, or a transport exception. -/
inductive TokenFetch where
  | response (status : Nat) (token : Option String)
  | timeout
  | transportError
deriving DecidableEq, Repr

/-- The try block body of _get_websocket_token: on 200 return the "token"
field, on 404 fall back to the long-lived api_token, on any other status
raise; timeout and transport errors propagate as exceptions too. -/
def websocket_token_try_body (api_token : String) :
    TokenFetch → Except String (Option String)
  | .response status tok =>
      if status = 200 then .ok tok
      else if status = 404 then .ok (some api_token)
      else .error ("Failed to get WebSocket token: " ++ toString status)
  | .timeout => .error "asyncio.TimeoutError"
  | .transportError => .error "transport exception"

/-- _get_websocket_token: both the asyncio.TimeoutError handler and the
broad Exception handler return the long-lived api_token, so every exception
raised in the try body, including the raise on a non-200 non-404 status, is
converted into the api_token fallback. -/
def get_websocket_token (api_token : String) (f : TokenFetch) : Option String :=
  match websocket_token_try_body api_token f with
  | .ok t => t
  | .error _ => some api_token

/-!
## Agent listing: get_agents (src/ai_service.py lines 624-667)
-/

/-- A JSON value, as far as the dispatch in get_agents distinguishes them. -/
inductive JVal where
  | null
  | jbool (b : Bool)
  | jnum (n : Int)
  | jstr (s : String)
  | jarr (xs : List JVal)
  | jobj (kvs : List (String × JVal))
deriving Repr

/-- Python dict.get by key presence (the first binding wins, matching the
unique-key objects json.loads produces). -/
def jget (kvs : List (String × JVal)) (k : String) : Option JVal :=
  match kvs.find? (fun p => p.1 == k) with
  | some p => some p.2
  | none => none

/-- Whether len() succeeds on the Python value a JVal decodes to (lists,
dicts and strings have a length; None, booleans and numbers raise
TypeError). -/
def pyHasLen : JVal → Bool
  | .jstr _ => true
  | .jarr _ => true
  | .jobj _ => true
  | _ => false

/-- The chained lookup in get_agents:
data.get("agents", data.get("data", data.get("results", []))). -/
def agents_key_chain (kvs : List (String × JVal)) : JVal :=
  (jget kvs "agents").getD ((jget kvs "data").getD ((jget kvs "results").getD (.jarr [])))

/-- Outcome of the GET to the agents endpoint: a response with a status and
an optionally parseable JSON body (none = json parse failure), or a
transport exception. -/
inductive AgentsFetch where
  | ok (status : Nat) (body : Option JVal)
  | transportError
deriving Repr

/-- get_agents: on 200 extract the agents value (list body as is, object
body via the key chain, anything else leaves the initial empty list); the
len(agents) logging call raises TypeError on values without a length, which
the inner handler converts to an empty list; every other failure path
returns the empty list. -/
def get_agents (f : AgentsFetch) : JVal :=
  match f with
  | .ok status body =>
      if status = 200 then
        match body with
        | none => .jarr []
        | some data =>
            let agents : JVal :=
              match data with
              | .jarr xs => .jarr xs
              | .jobj kvs => agents_key_chain kvs
              | _ => .jarr []
            if pyHasLen agents then agents else .jarr []
      else .jarr []
  | .transportError => .jarr []

/-!
## Storage model (src/database.py)

The two tables, with rows kept in insertion order; created_at values are
produced by datetime.now().isoformat() and are strictly increasing over the
life of a session, so the chronological order used by get_messages (ORDER BY
created_at DESC, LIMIT, then reverse) coincides with taking the last rows of
the insertion-ordered list.
-/

/-- A chat_messages row. -/
structure MessageRow where
  id : String
  session_id : String
  role : String
  content : String
  created_at : String
deriving DecidableEq, Repr

/-- A chat_sessions row. -/
structure SessionRow where
  id : String
  agent_id : String
  created_at : String
  updated_at : String
deriving DecidableEq, Repr

/-- The database state. -/
structure DB where
  sessions : List SessionRow
  messages : List MessageRow
deriving DecidableEq, Repr

/-- The last n elements of a list, in order. -/
def lastN (n : Nat) (l : List α) : List α :=
  (l.reverse.take n).reverse

/-- update_session_timestamp (lines 106-113). -/
def update_session_timestamp (db : DB) (session_id now : String) : DB :=
  { db with sessions :=
      db.sessions.map (fun s =>
        if s.id = session_id then { s with updated_at := now } else s) }

/-- add_message (lines 117-138); the generated uuid and timestamp are passed
in explicitly. -/
def add_message (db : DB) (session_id role content message_id now : String) : DB :=
  update_session_timestamp
    { db with messages := db.messages ++ [⟨message_id, session_id, role, content, now⟩] }
    session_id now

/-- get_messages (lines 140-161): rows of the session ordered by created_at
descending, limited, then reversed back to chronological order; equivalently
the last limit rows of the chronological list. -/
def get_messages (db : DB) (session_id : String) (limit : Nat) : List MessageRow :=
  lastN limit (db.messages.filter (fun r => r.session_id == session_id))

/-- update_message_content (lines 163-170): set content on the row whose id
matches; nothing else is touched. -/
def update_message_content (db : DB) (message_id content : String) : DB :=
  { db with messages :=
      db.messages.map (fun r =>
        if r.id = message_id then { r with content := content } else r) }

/-!
## Connection registry: ConnectionManager (src/app.py lines 45-71)

Connections are identified by naturals; the dict of active connections is an
association list with distinct keys.  disconnect returns none when the
Python code raises (list.remove on a list not containing the websocket). -/

/-- The active_connections dict. -/
abbrev Registry := List (String × List Nat)

/-- Python "session_id in dict" plus dict lookup. -/
def regLookup (r : Registry) (session_id : String) : Option (List Nat) :=
  match r.find? (fun p => p.1 == session_id) with
  | some p => some p.2
  | none => none

/-- Python list.remove: removes the first occurrence, none when absent
(ValueError). -/
def removeFirst : List Nat → Nat → Option (List Nat)
  | [], _ => none
  | c :: cs, ws => if c = ws then some cs else (removeFirst cs ws).map (c :: ·)

/-- Replace the value stored under a key. -/
def regSet (r : Registry) (session_id : String) (conns : List Nat) : Registry :=
  r.map (fun p => if p.1 == session_id then (p.1, conns) else p)

/-- Python del dict[key]. -/
def regErase (r : Registry) (session_id : String) : Registry :=
  r.filter (fun p => p.1 != session_id)

/-- ConnectionManager.disconnect (lines 58-63): when the session has an
entry, remove the websocket from its list (ValueError, modelled as none,
when it is not there) and drop the entry when the list becomes empty;
when the session has no entry the method only logs. -/
def ConnectionManager.disconnect (r : Registry) (ws : Nat) (session_id : String) :
    Option Registry :=
  match regLookup r session_id with
  | none => some r
  | some conns =>
      match removeFirst conns ws with
      | none => none
      | some conns2 =>
          some (if conns2.isEmpty then regErase r session_id else regSet r session_id conns2)

/-!
## Conversation context construction
(src/app.py lines 286-287, src/ai_service.py lines 506-522)
-/

/-- models.py ChatMessage, as built from a get_messages row. -/
structure ChatMessage where
  id : String
  role : String
  content : String
  created_at : String
deriving DecidableEq, Repr

/-- ChatMessage(**msg) on a get_messages row. -/
def rowToChatMessage (r : MessageRow) : ChatMessage :=
  ⟨r.id, r.role, r.content, r.created_at⟩

/-- One entry of the messages list sent upstream. -/
structure CtxMsg where
  role : String
  content : String
deriving DecidableEq, Repr

/-- _build_conversation_history_from_data: system prompt from the agent
instructions (dict.get default when the key is absent), the last 10 context
messages with roles normalised, then the current message. -/
def build_conversation_history_from_data (current_message : String)
    (context : List ChatMessage) (instructions : Option String) : List CtxMsg :=
  let system_prompt := instructions.getD "You are a helpful AI assistant."
  ({ role := "system", content := system_prompt } : CtxMsg) ::
    (lastN 10 context).map (fun m =>
      ({ role := if m.role == "user" then "user" else "assistant",
         content := m.content } : CtxMsg))
    ++ [{ role := "user", content := current_message }]

/-- The context pipeline of handle_user_message: persist the user message,
re-read the last 10 rows of the session, drop the row just written
(context[:-1]), and build the upstream history from the rest. -/
def handle_user_message_context (db : DB) (session_id content message_id now : String)
    (instructions : Option String) : List CtxMsg :=
  let db1 := add_message db session_id "user" content message_id now
  let context := get_messages db1 session_id 10
  let context_messages := (context.dropLast).map rowToChatMessage
  build_conversation_history_from_data content context_messages instructions

/-!
## The conversation handler streaming callback
(src/app.py lines 293-345)

The callback closes over ai_message_id and full_response and performs
database writes and broadcasts; the state below records those effects.  The
uuid of a lazily created assistant message is modelled by a counter.
-/

/-- A broadcast payload value: a string, a nullable string, or a boolean. -/
inductive PVal where
  | s (v : String)
  | os (v : Option String)
  | b (v : Bool)
deriving DecidableEq, Repr

/-- An envelope broadcast to the conversation (timestamp omitted: the claims
under study say nothing about it). -/
structure Envelope where
  etype : String
  payload : List (String × PVal)
deriving DecidableEq, Repr

/-- A database write performed by the callback. -/
inductive DbOp where
  | addMessage (session_id role content : String)
  | updateContent (message_id content : String)
deriving DecidableEq, Repr

/-- The mutable state of one relay attempt inside handle_user_message. -/
structure StreamCbState where
  ai_message_id : Option String
  full_response : String
  dbOps : List DbOp
  sent : List Envelope
  nextId : Nat
deriving DecidableEq, Repr

/-- State at the start of a relay attempt. -/
def initStreamCbState : StreamCbState := ⟨none, "", [], [], 0⟩

/-- The if chunk: part of stream_callback; the boolean is true when the
thread-info branch hit its return statement (which skips the is_complete
handling of the same invocation). -/
def stream_callback_chunk_part (session_id : String) (st : StreamCbState)
    (chunk : String) : StreamCbState × Bool :=
  if chunk = "" then (st, false)
  else if pyStartsWith chunk "__THREAD_INFO__" then
    let tid := pyReplace chunk "__THREAD_INFO__" ""
    ({ st with sent := st.sent ++
        [(⟨"thread_info", [("threadId", PVal.s tid)]⟩ : Envelope)] }, true)
  else
    let st1 := { st with full_response := st.full_response ++ chunk }
    let st2 :=
      match st1.ai_message_id with
      | none =>
          { st1 with
              ai_message_id := some ("ai-msg-" ++ toString st1.nextId),
              dbOps := st1.dbOps ++ [DbOp.addMessage session_id "assistant" ""],
              nextId := st1.nextId + 1 }
      | some _ => st1
    ({ st2 with sent := st2.sent ++
        [(⟨"ai_chunk", [("chunk", PVal.s chunk),
                        ("message_id", PVal.os st2.ai_message_id)]⟩ : Envelope)] },
      false)

/-- The if is_complete: part of stream_callback: persist the accumulated
text when a message record exists, then broadcast typing false and
ai_complete. -/
def stream_callback_complete_part (st : StreamCbState) : StreamCbState :=
  let st1 :=
    match st.ai_message_id with
    | some mid => { st with dbOps := st.dbOps ++ [DbOp.updateContent mid st.full_response] }
    | none => st
  { st1 with sent := st1.sent ++
      [(⟨"typing", [("typing", PVal.b false)]⟩ : Envelope),
       (⟨"ai_complete", [("message_id", PVal.os st1.ai_message_id),
                         ("content", PVal.s st1.full_response)]⟩ : Envelope)] }

/-- One invocation of stream_callback. -/
def stream_callback (session_id : String) (st : StreamCbState)
    (chunk : String) (is_complete : Bool) : StreamCbState :=
  let r := stream_callback_chunk_part session_id st chunk
  if r.2 then r.1
  else if is_complete then stream_callback_complete_part r.1
  else r.1

/-- Run a sequence of callback invocations from the initial state. -/
def run_stream_callback (session_id : String) (invs : List (String × Bool)) :
    StreamCbState :=
  invs.foldl (fun st inv => stream_callback session_id st inv.1 inv.2) initStreamCbState

/-- A message whose processing appends a fragment to response_parts in
buffered mode: a chunk frame or a raw-text fallback frame. -/
def appendsFragment : WSMsg → Bool
  | .jsonText f => f.jtype == some "chunk"
  | .rawText _ => true
  | _ => false

/-- A message on which buffered mode raises the upstream error exception:
an unrecognised type together with a truthy error field. -/
def raisesAgentError : WSMsg → Bool
  | .jsonText f =>
      !(f.jtype == some "chunk") && !(f.jtype == some "complete") &&
      !(f.jtype == some "connected") && !(f.jtype == some "typing") &&
      !(f.jtype == some "thread_info") && truthy f.jerror
  | _ => false

/-- The state of one relay attempt before any real content chunk has been
processed: no lazily created assistant record, empty accumulator, no
database writes. -/
def cbPristine (st : StreamCbState) : Prop :=
  st.ai_message_id = none ∧ st.full_response = "" ∧ st.dbOps = []

/-- A conversation with ten prior user messages, in chronological order. -/
def tenPriorDb : DB :=
  ⟨[], [⟨"i1", "s", "user", "m1", "t01"⟩, ⟨"i2", "s", "user", "m2", "t02"⟩,
        ⟨"i3", "s", "user", "m3", "t03"⟩, ⟨"i4", "s", "user", "m4", "t04"⟩,
        ⟨"i5", "s", "user", "m5", "t05"⟩, ⟨"i6", "s", "user", "m6", "t06"⟩,
        ⟨"i7", "s", "user", "m7", "t07"⟩, ⟨"i8", "s", "user", "m8", "t08"⟩,
        ⟨"i9", "s", "user", "m9", "t09"⟩, ⟨"i10", "s", "user", "m10", "t10"⟩]⟩

/-- A small database with one session and two messages. -/
def twoMsgDb : DB :=
  ⟨[⟨"sess", "agent", "t0", "t0"⟩],
   [⟨"a", "sess", "user", "hello", "t1"⟩, ⟨"b", "sess", "assistant", "old", "t2"⟩]⟩

/-!
## Helper lemmas
-/

theorem lastN_concat (n : Nat) (l : List α) (x : α) :
    lastN (n + 1) (l ++ [x]) = lastN n l ++ [x] := by
  simp [lastN]

theorem lastN_of_length_le {l : List α} {n : Nat} (h : l.length ≤ n) :
    lastN n l = l := by
  unfold lastN
  rw [List.take_of_length_le (by simpa using h), List.reverse_reverse]

theorem length_lastN_le (n : Nat) (l : List α) : (lastN n l).length ≤ n := by
  simp [lastN]

theorem stream_messages_terminal_count (msgs : List WSMsg) :
    terminalCount (stream_messages msgs).1 =
      if (stream_messages msgs).2 then 1 else 0 := by
  induction msgs with
  | nil => simp [stream_messages, terminalCount]
  | cons m rest ih =>
      cases m with
      | jsonText f =>
          simp only [stream_messages]
          split_ifs <;> simp_all [terminalCount, List.filter_cons]
      | rawText s => simpa [stream_messages] using ih
      | wsError => simp [stream_messages, terminalCount]
      | close => simp [stream_messages, terminalCount]

theorem stream_messages_chunks (cs : List String) :
    stream_messages (cs.map chunkFrame ++ [completeFrame]) =
      ((cs.filter (fun c => c != "")).map (fun c => (c, false)) ++ [("", true)], true) := by
  induction cs with
  | nil => rfl
  | cons c cs ih =>
      by_cases hc : c = "" <;>
        simp [chunkFrame, stream_messages, hc, ih, List.filter_cons]

theorem collect_messages_chunk_append (cs : List String) (rest : List WSMsg) :
    ∀ parts, collect_messages (cs.map chunkFrame ++ rest) parts =
      collect_messages rest (parts ++ cs) := by
  induction cs with
  | nil => intro parts; simp
  | cons c cs ih =>
      intro parts
      simp [chunkFrame, collect_messages, ih]

theorem collect_messages_benign (msgs : List WSMsg)
    (h : ∀ m ∈ msgs, appendsFragment m = false ∧ raisesAgentError m = false) :
    ∀ parts, collect_messages msgs parts = .done parts := by
  induction msgs with
  | nil => intro parts; rfl
  | cons m rest ih =>
      intro parts
      obtain ⟨h1, h2⟩ := h m (List.mem_cons_self m rest)
      have hrest := ih (fun m hm => h m (List.mem_cons_of_mem _ hm))
      cases m with
      | jsonText f =>
          simp only [appendsFragment, beq_iff_eq] at h1
          rw [Bool.eq_false_iff] at h1
          simp only [collect_messages]
          split_ifs with hc hcomp hconn htyp hti herr
          · exact absurd (by simp [hc]) h1
          · rfl
          · exact hrest parts
          · exact hrest parts
          · exact hrest parts
          · exfalso
            apply absurd h2
            simp [raisesAgentError, hc, hcomp, hconn, htyp, hti, herr]
          · exact hrest parts
      | rawText s => exact absurd h1 (by simp [appendsFragment])
      | wsError => rfl
      | close => rfl

/-!
## Claim C1
-/

/-- Claim C1, counterexample: when the upstream event iterator ends without
a complete event, an error, a close frame or a timeout, streaming mode never
invokes the callback with is_complete = true: after one chunk and a normal
stream end the trace is a single non-terminal invocation, so the exactly
once guarantee fails on this exit path. -/
theorem C1_cex_stream_end_without_terminal :
    call_remote_agent_stream [chunkFrame "hi"] false = [("hi", false)] ∧
    terminalCount (call_remote_agent_stream [chunkFrame "hi"] false) = 0 := by
  constructor <;> decide

/-- Claim C1, amended: per relay attempt, the callback is invoked with
is_complete = true exactly once when the read loop exits early through a
terminal branch (complete event, upstream error field, transport error
frame, explicit close frame) or when the 30 second timeout fires, and zero
times when the event stream simply ends with none of these. -/
theorem C1_stream_terminal_exactly_once_iff_terminal_exit
    (msgs : List WSMsg) (timedOut : Bool) :
    terminalCount (call_remote_agent_stream msgs timedOut) =
      if (stream_messages msgs).2 || timedOut then 1 else 0 := by
  have h := stream_messages_terminal_count msgs
  cases ht : (stream_messages msgs).2 with
  | false =>
      rw [ht] at h
      cases timedOut with
      | false => simpa [call_remote_agent_stream, ht] using h
      | true =>
          simp only [call_remote_agent_stream, ht, if_false, Bool.false_eq_true,
            Bool.false_or, if_true]
          simp only [terminalCount, List.filter_append] at h ⊢
          simp [h]
  | true =>
      rw [ht] at h
      simp only [call_remote_agent_stream, ht, if_true, Bool.true_or]
      simpa using h

/-- Claim C1 amended, witness at a concrete input. -/
theorem C1_stream_terminal_witness :
    terminalCount (call_remote_agent_stream [chunkFrame "hi", completeFrame] false) =
      if (stream_messages [chunkFrame "hi", completeFrame]).2 || false then 1 else 0 :=
  C1_stream_terminal_exactly_once_iff_terminal_exit [chunkFrame "hi", completeFrame] false

/-!
## Claim C4
-/

/-- Claim C4, counterexample: a chunk event whose text fragment is the empty
string is skipped by the if content guard, so the callback is not invoked
for it: after an empty chunk and a complete event the trace holds only the
terminal invocation. -/
theorem C4_cex_empty_chunk_not_delivered :
    call_remote_agent_stream [chunkFrame "", completeFrame] false = [("", true)] ∧
    (call_remote_agent_stream [chunkFrame "", completeFrame] false).filter
      (fun c => !c.2) = [] := by
  constructor <;> decide

/-- Claim C4, amended: for every sequence of chunk events followed by a
complete event, streaming mode invokes the delivery callback exactly once
per chunk with non-empty text, immediately and in arrival order, with
is_complete = false, and skips chunks whose text is empty. -/
theorem C4_stream_delivers_nonempty_chunks_in_order (cs : List String) (timedOut : Bool) :
    call_remote_agent_stream (cs.map chunkFrame ++ [completeFrame]) timedOut =
      (cs.filter (fun c => c != "")).map (fun c => (c, false)) ++ [("", true)] := by
  simp [call_remote_agent_stream, stream_messages_chunks]

/-!
## Claim C5
-/

/-- Claim C5, counterexample: a single whitespace chunk followed by complete
makes buffered mode return the empty-response sentinel, not the stripped
concatenation (which is the empty string). -/
theorem C5_cex_whitespace_chunks_sentinel :
    call_remote_agent [chunkFrame " ", completeFrame] = emptyResponseSentinel ∧
    call_remote_agent [chunkFrame " ", completeFrame] ≠ pyStrip (String.join [" "]) := by
  constructor <;> decide

/-- Claim C5, amended: for every sequence of chunk events followed by a
complete event or by the read timeout, buffered mode returns the
concatenation of the chunk texts in arrival order with surrounding
whitespace stripped when that string is non-empty, and the empty-response
sentinel when it is empty. -/
theorem C5_buffered_returns_stripped_concat (cs : List String) :
    (call_remote_agent (cs.map chunkFrame ++ [completeFrame]) =
      if pyStrip (String.join cs) = "" then emptyResponseSentinel
      else pyStrip (String.join cs)) ∧
    (call_remote_agent (cs.map chunkFrame) =
      if pyStrip (String.join cs) = "" then emptyResponseSentinel
      else pyStrip (String.join cs)) := by
  have h1 := collect_messages_chunk_append cs [completeFrame] []
  have h2 := collect_messages_chunk_append cs [] []
  simp only [List.nil_append] at h1 h2
  have hc1 : collect_messages (cs.map chunkFrame ++ [completeFrame]) [] =
      .done cs := by
    rw [h1]; rfl
  have hc2 : collect_messages (cs.map chunkFrame) [] = .done cs := by
    rw [← List.append_nil (cs.map chunkFrame), h2]; rfl
  constructor
  · rw [call_remote_agent, hc1]
  · rw [call_remote_agent, hc2]

/-!
## Claim C6
-/

/-- Claim C6, confirmed: if the connection is established and no
fragment-producing event (chunk or raw-text fallback) and no upstream error
raise occurs before the stream ends, buffered mode returns the fixed
sentinel, which is not the empty string; no exception escapes (the model is
total and every handler path yields a string). -/
theorem C6_buffered_no_chunks_sentinel (msgs : List WSMsg)
    (h : ∀ m ∈ msgs, appendsFragment m = false ∧ raisesAgentError m = false) :
    call_remote_agent msgs = emptyResponseSentinel ∧ emptyResponseSentinel ≠ "" := by
  refine ⟨?_, by decide⟩
  rw [call_remote_agent, collect_messages_benign msgs h []]
  decide

/-- Claim C6, witness: a connected frame, a typing frame and a complete
frame, with no chunk events. -/
theorem C6_buffered_no_chunks_sentinel_witness :
    call_remote_agent [WSMsg.jsonText ⟨some "connected", none, none, none⟩,
        WSMsg.jsonText ⟨some "typing", none, none, none⟩, completeFrame] =
      emptyResponseSentinel ∧ emptyResponseSentinel ≠ "" :=
  C6_buffered_no_chunks_sentinel _ (by decide)

/-!
## Claim C2
-/

/-- Claim C2, counterexample: on HTTP 500 the try body does raise, but the
broad except handler of the same function catches that very exception and
returns the long-lived credential, so the caller receives a token instead of
an authentication failure. -/
theorem C2_cex_status_500_returns_api_token :
    websocket_token_try_body "KEY" (.response 500 none) =
      .error "Failed to get WebSocket token: 500" ∧
    get_websocket_token "KEY" (.response 500 none) = some "KEY" :=
  ⟨rfl, rfl⟩

/-- Claim C2, amended: for every status that is neither 200 nor 404, an
exception is raised inside the try block, but the broad exception handler of
_get_websocket_token itself catches it and returns the long-lived API
credential, so the caller always receives a token and no authentication
error is surfaced. -/
theorem C2_token_fallback_on_other_status (api_token : String) (status : Nat)
    (tok : Option String) (h200 : status ≠ 200) (h404 : status ≠ 404) :
    (∃ e, websocket_token_try_body api_token (.response status tok) = .error e) ∧
    get_websocket_token api_token (.response status tok) = some api_token := by
  constructor
  · refine ⟨"Failed to get WebSocket token: " ++ toString status, ?_⟩
    simp [websocket_token_try_body, h200, h404]
  · simp [get_websocket_token, websocket_token_try_body, h200, h404]

/-- Claim C2 amended, witness at status 500. -/
theorem C2_token_fallback_witness :
    (∃ e, websocket_token_try_body "KEY" (.response 500 (some "T")) = .error e) ∧
    get_websocket_token "KEY" (.response 500 (some "T")) = some "KEY" :=
  C2_token_fallback_on_other_status "KEY" 500 (some "T") (by decide) (by decide)

/-!
## Claim C7
-/

/-- list.remove fails (ValueError) exactly when the element is absent. -/
theorem removeFirst_eq_none_of_not_mem (conns : List Nat) (ws : Nat)
    (h : ws ∉ conns) : removeFirst conns ws = none := by
  induction conns with
  | nil => rfl
  | cons c cs ih =>
      have hne : c ≠ ws := fun he => h (he ▸ List.mem_cons_self c cs)
      have hcs : ws ∉ cs := fun hm => h (List.mem_cons_of_mem _ hm)
      simp [removeFirst, hne, ih hcs]

/-- Claim C7, counterexample: unregistering a connection that is not
registered for a conversation that still has another registered connection
raises (list.remove ValueError, modelled as none), so it is neither a no-op
nor error-free. -/
theorem C7_cex_disconnect_raises :
    ConnectionManager.disconnect [("s1", [2])] 1 "s1" = none ∧
    ConnectionManager.disconnect [("s1", [2])] 1 "s1" ≠ some [("s1", [2])] := by
  constructor <;> decide

/-- Claim C7, amended: unregistering a connection that is not currently
registered is a no-op only when the conversation identifier has no entry at
all; when other connections remain registered for that conversation, the
removal raises ValueError (the registry dict itself is left unmutated by the
aborted call, but an error escapes). -/
theorem C7_disconnect_unregistered (r : Registry) (ws : Nat) (session_id : String) :
    (regLookup r session_id = none →
      ConnectionManager.disconnect r ws session_id = some r) ∧
    (∀ conns, regLookup r session_id = some conns → ws ∉ conns →
      ConnectionManager.disconnect r ws session_id = none) := by
  constructor
  · intro h
    simp [ConnectionManager.disconnect, h]
  · intro conns h hmem
    simp [ConnectionManager.disconnect, h, removeFirst_eq_none_of_not_mem conns ws hmem]

/-- Claim C7 amended, witness: session absent is a no-op; session present
without the connection raises. -/
theorem C7_disconnect_unregistered_witness :
    ConnectionManager.disconnect [("s1", [2])] 7 "s2" = some [("s1", [2])] ∧
    ConnectionManager.disconnect [("s1", [2])] 7 "s1" = none :=
  ⟨(C7_disconnect_unregistered [("s1", [2])] 7 "s2").1 (by decide),
   (C7_disconnect_unregistered [("s1", [2])] 7 "s1").2 [2] (by decide) (by decide)⟩

/-!
## Claim C8
-/

/-- Claim C8, counterexample: for the 200 body obj with key agents bound to
null, the code extracts None, the len logging call raises TypeError, and the
inner handler returns the empty list instead of the value stored under the
agents key. -/
theorem C8_cex_null_agents_key :
    get_agents (.ok 200 (some (.jobj [("agents", .null)]))) = .jarr [] ∧
    get_agents (.ok 200 (some (.jobj [("agents", .null)]))) ≠ .null := by
  refine ⟨rfl, ?_⟩
  intro h
  exact JVal.noConfusion h

/-- Claim C8, amended: on a 200 response the operation returns a JSON list
body unchanged; for an object body it returns the value under agents, else
data, else results, checked in that order (empty list when none is present),
provided the extracted value supports len() (list, object or string) — when
it does not (null, boolean, number), the logging call len(agents) raises and
the handler returns the empty list; on any non-200 status, JSON parse
failure, a 200 body that is neither list nor object, or transport exception
it returns the empty list, never raising. -/
theorem C8_get_agents_extraction :
    (∀ xs, get_agents (.ok 200 (some (.jarr xs))) = .jarr xs) ∧
    (∀ kvs, get_agents (.ok 200 (some (.jobj kvs))) =
      (if pyHasLen (agents_key_chain kvs) then agents_key_chain kvs else .jarr [])) ∧
    (∀ kvs v, jget kvs "agents" = some v → agents_key_chain kvs = v) ∧
    (∀ kvs v, jget kvs "agents" = none → jget kvs "data" = some v →
      agents_key_chain kvs = v) ∧
    (∀ kvs v, jget kvs "agents" = none → jget kvs "data" = none →
      jget kvs "results" = some v → agents_key_chain kvs = v) ∧
    (∀ kvs, jget kvs "agents" = none → jget kvs "data" = none →
      jget kvs "results" = none → agents_key_chain kvs = .jarr []) ∧
    (∀ s b, s ≠ 200 → get_agents (.ok s b) = .jarr []) ∧
    (get_agents (.ok 200 none) = .jarr []) ∧
    (∀ s n, get_agents (.ok 200 (some (.jstr s))) = .jarr [] ∧
      get_agents (.ok 200 (some (.jnum n))) = .jarr [] ∧
      get_agents (.ok 200 (some .null)) = .jarr []) ∧
    (get_agents .transportError = .jarr []) := by
  refine ⟨fun xs => rfl, fun kvs => rfl, ?_, ?_, ?_, ?_, ?_, rfl, fun s n => ⟨rfl, rfl, rfl⟩, rfl⟩
  · intro kvs v h
    simp [agents_key_chain, h]
  · intro kvs v h1 h2
    simp [agents_key_chain, h1, h2]
  · intro kvs v h1 h2 h3
    simp [agents_key_chain, h1, h2, h3]
  · intro kvs h1 h2 h3
    simp [agents_key_chain, h1, h2, h3]
  · intro s b h
    simp [get_agents, h]

/-- Claim C8 amended, witness: the data key is used when agents is absent,
and a 404 yields the empty list. -/
theorem C8_get_agents_extraction_witness :
    agents_key_chain [("data", JVal.jstr "x")] = JVal.jstr "x" ∧
    get_agents (.ok 404 (some (.jarr []))) = .jarr [] :=
  ⟨C8_get_agents_extraction.2.2.2.1 [("data", JVal.jstr "x")] (JVal.jstr "x") rfl rfl,
   C8_get_agents_extraction.2.2.2.2.2.2.1 404 (some (.jarr [])) (by decide)⟩

/-!
## Claim C3
-/

/-- Claim C3, counterexample: on a conversation with ten prior messages the
context sent upstream is not the system message, the ten priors and the
current message: because the relay re-reads the last ten rows after
persisting the current message and then drops the current one, the oldest
prior (m1) is missing and only nine priors remain (the actual context has 11
entries, the claim requires 12). -/
theorem C3_cex_tenth_prior_dropped :
    (handle_user_message_context tenPriorDb "s" "hi" "i11" "t11" (some "SYS")).length = 11 ∧
    handle_user_message_context tenPriorDb "s" "hi" "i11" "t11" (some "SYS") ≠
      ({ role := "system", content := "SYS" } : CtxMsg) ::
        [({ role := "user", content := "m1" } : CtxMsg), ⟨"user", "m2"⟩, ⟨"user", "m3"⟩,
         ⟨"user", "m4"⟩, ⟨"user", "m5"⟩, ⟨"user", "m6"⟩, ⟨"user", "m7"⟩, ⟨"user", "m8"⟩,
         ⟨"user", "m9"⟩, ⟨"user", "m10"⟩]
        ++ [{ role := "user", content := "hi" }] := by
  constructor <;> decide

/-- Claim C3, amended: the context passed upstream is a system-instruction
message, followed by the nine (not ten) most recent prior messages of the
conversation in chronological order, followed by the current user message
last; in particular a fresh conversation with no prior messages yields
exactly one system message plus one user message. -/
theorem C3_context_nine_priors (db : DB) (session_id content message_id now : String)
    (instructions : Option String) :
    handle_user_message_context db session_id content message_id now instructions =
      ({ role := "system",
         content := instructions.getD "You are a helpful AI assistant." } : CtxMsg) ::
        (lastN 9 (db.messages.filter (fun r => r.session_id == session_id))).map
          (fun r => ({ role := if r.role == "user" then "user" else "assistant",
                       content := r.content } : CtxMsg))
        ++ [{ role := "user", content := content }] := by
  have hfilter : ((db.messages ++
      [(⟨message_id, session_id, "user", content, now⟩ : MessageRow)]).filter
      (fun r => r.session_id == session_id)) =
      db.messages.filter (fun r => r.session_id == session_id) ++
        [⟨message_id, session_id, "user", content, now⟩] := by
    rw [List.filter_append]
    simp
  have hlast : lastN 10 (db.messages.filter (fun r => r.session_id == session_id) ++
      [(⟨message_id, session_id, "user", content, now⟩ : MessageRow)]) =
      lastN 9 (db.messages.filter (fun r => r.session_id == session_id)) ++
        [⟨message_id, session_id, "user", content, now⟩] := by
    have h := lastN_concat 9 (db.messages.filter (fun r => r.session_id == session_id))
      (⟨message_id, session_id, "user", content, now⟩ : MessageRow)
    norm_num at h
    exact h
  have hself : lastN 10
      ((lastN 9 (db.messages.filter (fun r => r.session_id == session_id))).map
        rowToChatMessage) =
      (lastN 9 (db.messages.filter (fun r => r.session_id == session_id))).map
        rowToChatMessage := by
    apply lastN_of_length_le
    rw [List.length_map]
    exact le_trans (length_lastN_le 9 _) (by norm_num)
  simp only [handle_user_message_context, add_message, update_session_timestamp,
    get_messages, build_conversation_history_from_data]
  rw [hfilter, hlast]
  simp only [List.dropLast_concat]
  rw [hself]
  simp [rowToChatMessage, Function.comp]

/-!
## Claim C9
-/

/-- Claim C9, confirmed: update_message_content leaves the sessions table
and the shape of the messages table unchanged, and rewrites each message row
in place: the row keeps its id, session_id, role and created_at; a row whose
id differs from the target is wholly unchanged; the row whose id matches has
its content replaced. -/
theorem C9_update_message_content_frame (db : DB) (message_id content : String) :
    (update_message_content db message_id content).sessions = db.sessions ∧
    (update_message_content db message_id content).messages.length =
      db.messages.length ∧
    (∀ (i : Nat) (r : MessageRow), db.messages[i]? = some r →
      ∃ r2 : MessageRow,
        (update_message_content db message_id content).messages[i]? = some r2 ∧
        r2.id = r.id ∧ r2.session_id = r.session_id ∧ r2.role = r.role ∧
        r2.created_at = r.created_at ∧
        (r.id ≠ message_id → r2 = r) ∧ (r.id = message_id → r2.content = content)) := by
  refine ⟨rfl, by simp [update_message_content], ?_⟩
  intro i r h
  by_cases hid : r.id = message_id
  · refine ⟨{ r with content := content }, ?_, rfl, rfl, rfl, rfl,
      fun hne => absurd hid hne, fun _ => rfl⟩
    simp [update_message_content, h, hid]
  · refine ⟨r, ?_, rfl, rfl, rfl, rfl, fun _ => rfl, fun he => absurd he hid⟩
    simp [update_message_content, h, hid]

/-- Claim C9, witness: updating message b of the two-message database. -/
theorem C9_update_message_content_frame_witness :
    ∃ r2 : MessageRow,
      (update_message_content twoMsgDb "b" "new").messages[1]? = some r2 ∧
      r2.id = "b" ∧ r2.session_id = "sess" ∧ r2.role = "assistant" ∧
      r2.created_at = "t2" ∧
      (("b" : String) ≠ "b" → r2 = ⟨"b", "sess", "assistant", "old", "t2"⟩) ∧
      (("b" : String) = "b" → r2.content = "new") :=
  (C9_update_message_content_frame twoMsgDb "b" "new").2.2 1
    ⟨"b", "sess", "assistant", "old", "t2"⟩ rfl

/-!
## Claim C10
-/

/-- Pristine states are preserved by any non-terminal callback invocation
whose chunk is empty or a thread-info sentinel. -/
theorem stream_callback_pristine (session_id c : String) (st : StreamCbState)
    (hst : cbPristine st)
    (hc : c = "" ∨ pyStartsWith c "__THREAD_INFO__" = true) :
    cbPristine (stream_callback session_id st c false) := by
  obtain ⟨h1, h2, h3⟩ := hst
  by_cases hc0 : c = ""
  · simpa [stream_callback, stream_callback_chunk_part, hc0, cbPristine] using ⟨h1, h2, h3⟩
  · have hsw : pyStartsWith c "__THREAD_INFO__" = true := hc.resolve_left hc0
    simp [stream_callback, stream_callback_chunk_part, hc0, hsw, cbPristine, h1, h2, h3]

/-- Folding benign invocations keeps the state pristine. -/
theorem run_fold_pristine (session_id : String) (pre : List (String × Bool)) :
    ∀ st, cbPristine st →
    (∀ p ∈ pre, p.2 = false ∧ (p.1 = "" ∨ pyStartsWith p.1 "__THREAD_INFO__" = true)) →
    cbPristine (pre.foldl (fun s inv => stream_callback session_id s inv.1 inv.2) st) := by
  induction pre with
  | nil => intro st hst _; exact hst
  | cons p pre ih =>
      intro st hst h
      obtain ⟨hp2, hp1⟩ := h p (List.mem_cons_self p pre)
      have hnext : cbPristine (stream_callback session_id st p.1 p.2) := by
        rw [hp2]
        exact stream_callback_pristine session_id p.1 st hst hp1
      simpa using ih (stream_callback session_id st p.1 p.2) hnext
        (fun q hq => h q (List.mem_cons_of_mem _ hq))

/-- Claim C10, confirmed: when the terminal invocation arrives before any
non-empty content chunk (every earlier invocation carried an empty chunk or
a thread-info sentinel, and the terminal one carries the empty chunk), no
assistant message record is created and no content update is persisted, yet
a typing false envelope and an ai_complete envelope with empty content and a
null message identifier are still broadcast, after whatever thread_info
envelopes were forwarded. -/
theorem C10_terminal_before_content (session_id : String) (pre : List (String × Bool))
    (h : ∀ p ∈ pre, p.2 = false ∧ (p.1 = "" ∨ pyStartsWith p.1 "__THREAD_INFO__" = true)) :
    (run_stream_callback session_id (pre ++ [("", true)])).dbOps = [] ∧
    (run_stream_callback session_id (pre ++ [("", true)])).ai_message_id = none ∧
    ∃ earlier : List Envelope,
      (run_stream_callback session_id (pre ++ [("", true)])).sent =
        earlier ++
          [⟨"typing", [("typing", PVal.b false)]⟩,
           ⟨"ai_complete", [("message_id", PVal.os none), ("content", PVal.s "")]⟩] := by
  have hfold := run_fold_pristine session_id pre initStreamCbState
    (by simp [cbPristine, initStreamCbState]) h
  have heq : run_stream_callback session_id (pre ++ [("", true)]) =
      stream_callback session_id
        (pre.foldl (fun s inv => stream_callback session_id s inv.1 inv.2) initStreamCbState)
        "" true := by
    simp [run_stream_callback, List.foldl_append]
  rw [heq]
  generalize hstp : pre.foldl (fun s inv => stream_callback session_id s inv.1 inv.2)
    initStreamCbState = stp at hfold ⊢
  obtain ⟨h1, h2, h3⟩ := hfold
  refine ⟨?_, ?_, ⟨stp.sent, ?_⟩⟩ <;>
    simp [stream_callback, stream_callback_chunk_part, stream_callback_complete_part,
      h1, h2, h3]

/-- Claim C10, witness: one thread-info invocation followed by the terminal
invocation. -/
theorem C10_terminal_before_content_witness :
    (run_stream_callback "s1" ([("__THREAD_INFO__abc", false)] ++ [("", true)])).dbOps = [] ∧
    (run_stream_callback "s1"
      ([("__THREAD_INFO__abc", false)] ++ [("", true)])).ai_message_id = none ∧
    ∃ earlier : List Envelope,
      (run_stream_callback "s1" ([("__THREAD_INFO__abc", false)] ++ [("", true)])).sent =
        earlier ++
          [⟨"typing", [("typing", PVal.b false)]⟩,
           ⟨"ai_complete", [("message_id", PVal.os none), ("content", PVal.s "")]⟩] :=
  C10_terminal_before_content "s1" [("__THREAD_INFO__abc", false)] (by decide)

end RagwallaStudio
